import Mathlib

/-!
# Verification of the cat-flap session reconstruction engine

Shallow embedding of the session reconstruction engine of
`src/cat_flap_extractor_v5.py` (class `ProductionCatFlapExtractor`), together
with theorems settling the specification claims about it.

Modelling conventions:
* Python `str` values are Lean `String`s; a value that may be `None` is an
  `Option`.  Python truthiness (`if s:`) on optional strings/ints/floats is
  modelled by explicit `pyTruthy*` helpers (`None`, `""`, `0` and `0.0` are
  falsy).
* String primitives (`strip`, `lower`, `split`, `in`) are re-implemented over
  `List Char` by structural recursion so that every definition evaluates
  inside the kernel; they agree with the Python primitives on the ASCII data
  this program processes.
* Python `float` arithmetic is idealised as exact rational arithmetic (`ℚ`)
  in the main embedding.  Where a claim is sensitive to IEEE-754 double
  rounding, a faithful binary64 rounding model (`fl`) is used and the
  affected definitions carry `Float` in their names.
* Python `int(x)` on a float truncates toward zero (`pyTruncInt`); `//` and
  `%` on ints are floor division / modulus (`Int.fdiv` / `Int.fmod`).
* Python `int(str)` / `float(str)` literal parsing is modelled by `pyInt?` /
  `pyFloat?` (optional sign, decimal digits; exotic forms such as underscore
  separators or exponents never occur in this data and are not modelled).
-/

namespace CatFlap

set_option maxRecDepth 100000

/-! ## Python string/number primitives -/

/-- Whitespace characters recognised by Python `str.strip()` / `str.split()`
(ASCII subset, which is all that occurs in the reports). -/
def pyIsSpace (c : Char) : Bool :=
  c = ' ' || c = '\t' || c = '\n' || c = '\r' || c = '\x0b' || c = '\x0c'

/-- `str.strip()` on the character list. -/
def trimChars (l : List Char) : List Char :=
  ((l.dropWhile pyIsSpace).reverse.dropWhile pyIsSpace).reverse

/-- Python `str.strip()`. -/
def pyStrip (s : String) : String := String.mk (trimChars s.data)

/-- Python `str.lower()` (ASCII). -/
def pyLower (s : String) : String := String.mk (s.data.map Char.toLower)

/-- Python `c in s` for a single character. -/
def pyContainsChar (s : String) (c : Char) : Bool := s.data.contains c

/-- Fuel-driven worker for `str.split(sep)` with a non-empty separator;
structural recursion on the fuel so it evaluates in the kernel. -/
def splitOnFuel (sep : List Char) : ℕ → List Char → List Char → List (List Char)
  | 0, l, acc => [acc.reverse ++ l]
  | _ + 1, [], acc => [acc.reverse]
  | fuel + 1, c :: rest, acc =>
    if sep.isPrefixOf (c :: rest) then
      acc.reverse :: splitOnFuel sep fuel (List.drop (sep.length - 1) rest) []
    else
      splitOnFuel sep fuel rest (c :: acc)

/-- Python `s.split(sep)` for a non-empty separator string. -/
def pySplitOn (s sep : String) : List String :=
  (splitOnFuel sep.data (s.data.length + 1) s.data []).map String.mk

/-- `sub in s` for a multi-character Python substring test. -/
def hasSubstr (s sub : String) : Bool := (pySplitOn s sub).length ≥ 2

/-- One step of whitespace tokenisation (`str.split()` with no argument). -/
def splitWSStep (c : Char) : List Char × List (List Char) → List Char × List (List Char)
  | (cur, acc) => if pyIsSpace c then ([], if cur.isEmpty then acc else cur :: acc) else (c :: cur, acc)

/-- Python `s.split()`: split on whitespace runs, discarding empty pieces. -/
def pySplitWS (s : String) : List String :=
  (match s.data.foldr (fun c st => splitWSStep c st) ([], []) with
   | (cur, acc) => if cur.isEmpty then acc else cur :: acc).map String.mk

/-- Decimal digit list to a natural number. -/
def natOfChars (l : List Char) : ℕ := l.foldl (fun a c => a * 10 + (c.toNat - 48)) 0

/-- Non-empty all-digit string to `ℕ`. -/
def pyDigits? (s : String) : Option ℕ :=
  if s.data.isEmpty || !(s.data.all Char.isDigit) then none else some (natOfChars s.data)

/-- Python `int(s)`: strips whitespace, accepts an optional sign followed by
decimal digits. -/
def pyInt? (s : String) : Option ℤ :=
  let t := (pyStrip s).data
  match t with
  | '-' :: rest => (pyDigits? (String.mk rest)).map (fun n => -(n : ℤ))
  | '+' :: rest => (pyDigits? (String.mk rest)).map (fun n => (n : ℤ))
  | _ => (pyDigits? (String.mk t)).map (fun n => (n : ℤ))

/-! Rational arithmetic wrappers.  The library's `+`, `-`, `*`, `/`, `⁻¹` on
`ℚ` are `@[irreducible]`, so the embedding computes with the following
kernel-evaluable equivalents (bridge lemmas `qadd_eq` … below recover the
standard operators for symbolic reasoning). -/

/-- Kernel-evaluable rational addition. -/
def qadd (a b : ℚ) : ℚ :=
  Rat.divInt (a.num * (b.den : ℤ) + b.num * (a.den : ℤ)) ((a.den : ℤ) * (b.den : ℤ))

/-- Kernel-evaluable rational subtraction. -/
def qsub (a b : ℚ) : ℚ :=
  Rat.divInt (a.num * (b.den : ℤ) - b.num * (a.den : ℤ)) ((a.den : ℤ) * (b.den : ℤ))

/-- Kernel-evaluable rational multiplication. -/
def qmul (a b : ℚ) : ℚ := Rat.divInt (a.num * b.num) ((a.den : ℤ) * (b.den : ℤ))

/-- Kernel-evaluable rational division (Python `/` on floats; the source only
divides by nonzero constants). -/
def pyDiv (a b : ℚ) : ℚ := Rat.divInt (a.num * (b.den : ℤ)) ((a.den : ℤ) * b.num)

/-- Python `abs` on a (rational-modelled) float. -/
def pyAbs (q : ℚ) : ℚ := if q < 0 then -q else q

/-- The 0.5-hour tolerance literal of the source. -/
def tolHalf : ℚ := mkRat 1 2

/-- Python `float(s)` for plain decimal literals: optional sign, digits with
an optional fractional part. -/
def pyFloat? (s : String) : Option ℚ :=
  let t0 := pyStrip s
  let sgn : ℚ := if t0.data.head? = some '-' then -1 else 1
  let t := if t0.data.head? = some '-' || t0.data.head? = some '+' then
             String.mk (t0.data.drop 1) else t0
  match pySplitOn t "." with
  | [a] => (pyDigits? a).map (fun n => qmul sgn (n : ℚ))
  | [a, b] =>
      if a = "" && b = "" then none
      else
        match (if a = "" then some 0 else pyDigits? a),
              (if b = "" then some 0 else pyDigits? b) with
        | some i, some f => some (qmul sgn (qadd (i : ℚ) (mkRat (f : ℤ) (10 ^ b.data.length))))
        | _, _ => none
  | _ => none

/-- Python `int(x)` conversion of a (rational-modelled) float: truncation
toward zero. -/
def pyTruncInt (q : ℚ) : ℤ := Int.tdiv q.num (q.den : ℤ)

/-- Truthiness of an optional Python string: `None` and `""` are falsy. -/
def pyTruthyStr : Option String → Bool
  | none => false
  | some s => s ≠ ""

/-- Truthiness of an optional Python int: `None` and `0` are falsy. -/
def pyTruthyInt : Option ℤ → Bool
  | none => false
  | some n => n ≠ 0

/-- Truthiness of an optional Python float: `None` and `0.0` are falsy. -/
def pyTruthyRat : Option ℚ → Bool
  | none => false
  | some q => q ≠ 0

/-- Python `f"{n:02d}"`: zero-pad a decimal rendering to width 2. -/
def pad02 (n : ℤ) : String :=
  let s := toString n
  if s.length < 2 then "0" ++ s else s

/-- Python `f"{n:04d}"`: zero-pad a decimal rendering to width 4 (used by
`strftime("%Y-...")`). -/
def pad04 (n : ℤ) : String :=
  let s := toString n
  if s.length ≥ 4 then s
  else String.mk (List.replicate (4 - s.length) '0') ++ s

/-! ## Duration/timestamp normalizer (src/cat_flap_extractor_v5.py) -/

/-- `parse_timestamp_to_minutes` (src/cat_flap_extractor_v5.py:508):
"HH:MM" to minutes since midnight; `None` on malformed input.  The hour is
not range-checked (the source's documented permissive quirk). -/
def parse_timestamp_to_minutes (timeStr : Option String) : Option ℤ :=
  match timeStr with
  | none => none
  | some s =>
    if s = "" || !(pyContainsChar s ':') then none
    else
      match pySplitOn s ":" with
      | [h, m] =>
        match pyInt? h, pyInt? m with
        | some a, some b => some (a * 60 + b)
        | _, _ => none
      | _ => none

/-- `parse_duration_hours` (src/cat_flap_extractor_v5.py:153): parses
"H:MM h", "M:SS mins" and "S s" duration strings into an hour count. -/
def parse_duration_hours (durationStr : Option String) : Option ℚ :=
  match durationStr with
  | none => none
  | some s0 =>
    if s0 = "" || pyStrip s0 = "" then none
    else
      let s := pyLower (pyStrip s0)
      if pyContainsChar s 'h' then
        let hoursPart := pyStrip ((pySplitOn s "h").headD "")
        if pyContainsChar hoursPart ':' then
          match pySplitOn hoursPart ":" with
          | [h, m] =>
            match pyInt? h, pyInt? m with
            | some a, some b => some (qadd (a : ℚ) (pyDiv (b : ℚ) 60))
            | _, _ => none
          | _ => none
        else pyFloat? hoursPart
      else if hasSubstr s "min" then
        let minsPart := pyStrip ((pySplitOn s "min").headD "")
        if pyContainsChar minsPart ':' then
          match pySplitOn minsPart ":" with
          | [m, sec] =>
            match pyInt? m, pyInt? sec with
            | some a, some b => some (pyDiv (qadd (a : ℚ) (pyDiv (b : ℚ) 60)) 60)
            | _, _ => none
          | _ => none
        else (pyFloat? minsPart).map (pyDiv · 60)
      else if pyContainsChar s 's' then
        let secsPart := pyStrip ((pySplitOn s "s").headD "")
        (pyFloat? secsPart).map (pyDiv · 3600)
      else none

/-- `convert_duration_to_hhmm` (src/cat_flap_extractor_v5.py:189): format a
parsed duration as zero-padded "HH:MM", truncating to whole minutes. -/
def convert_duration_to_hhmm (durationStr : Option String) : Option String :=
  match parse_duration_hours durationStr with
  | none => none
  | some hours =>
    let totalMinutes := pyTruncInt (qmul hours 60)
    some (pad02 (Int.fdiv totalMinutes 60) ++ ":" ++ pad02 (Int.fmod totalMinutes 60))

/-- `determine_single_timestamp_type` (src/cat_flap_extractor_v5.py:518),
result component.  Returns "exit" or "entry"; missing/unparsable evidence
falls back to "entry".  The confidence-trail side effect is carried by
`determineSingleTimestampTypeSt` below. -/
def determine_single_timestamp_type (timestamp durationStr : Option String) : String :=
  if !(pyTruthyStr timestamp) || !(pyTruthyStr durationStr) then "entry"
  else
    match parse_duration_hours durationStr with
    | none => "entry"
    | some durationHours =>
      match parse_timestamp_to_minutes timestamp with
      | none => "entry"
      | some timestampMinutes =>
        if timestampMinutes < 12 * 60 ∧ durationHours < 12 then
          if pyAbs (qsub durationHours (pyDiv (timestampMinutes : ℚ) 60)) < tolHalf then "entry"
          else "exit"
        else if ¬ (timestampMinutes < 12 * 60) ∧ durationHours < 12 then
          if pyAbs (qsub durationHours (pyDiv ((24 * 60 - timestampMinutes : ℤ) : ℚ) 60)) < tolHalf
          then "exit"
          else "entry"
        else if durationHours ≥ 12 then
          if timestampMinutes < 12 * 60 then "entry" else "exit"
        else
          if timestampMinutes < 12 * 60 then "entry" else "exit"

/-! ## Data model (src/cat_flap_extractor_v5.py dict shapes, typed) -/

/-- One cell pair of a day's activity table, as produced by
`extract_time_duration_pairs_by_day` (the `type` tag of the source's dicts
becomes the constructor). -/
inductive TimeDurationPair where
  | completeSession (exit_time entry_time : String) (duration : Option String)
  | singleTimestamp (timestamp : String) (duration : Option String)
deriving DecidableEq

/-- One day's entry of the `daily_data` dict. -/
structure DayData where
  time_duration_pairs : List TimeDurationPair
  daily_visits : Option ℤ
  daily_total_time : Option String
deriving DecidableEq

/-- `daily_data`: an insertion-ordered Python dict keyed by `date_str`. -/
abbrev DailyData := List (String × DayData)

/-- A session dict as built by `build_sessions_with_enhanced_validation`;
the calculated/`date_full` fields are `none` until the corresponding
pipeline step fills them in. -/
structure Session where
  date_str : String
  session_number : ℕ
  exit_time : Option String
  entry_time : Option String
  duration : Option String
  daily_total_visits_PDF : Option ℤ
  daily_total_time_outside_PDF : Option String
  daily_total_visits_calculated : Option ℕ
  daily_total_time_outside_calculated : Option String
  date_full : Option String
deriving DecidableEq

/-- The four diagnostic lists of `ProductionCatFlapExtractor.__init__`. -/
structure ExtractorState where
  errors : List String
  warnings : List String
  state_issues : List String
  confidence_issues : List String
deriving DecidableEq

/-- Result dict of `calculate_daily_totals`. -/
structure DailyTotals where
  visits : ℕ
  time_outside : String
deriving DecidableEq

/-- The per-session contribution to `total_minutes` in
`calculate_daily_totals` (src/cat_flap_extractor_v5.py:201): both the
duration string and the parsed hour count are tested for truthiness before
`int(hours * 60)` is accumulated. -/
def sessionMinutes (dur : Option String) : ℤ :=
  if pyTruthyStr dur then
    match parse_duration_hours dur with
    | some h => if h ≠ 0 then pyTruncInt (qmul h 60) else 0
    | none => 0
  else 0

/-- Minutes total to zero-padded "HH:MM" (Python `//` and `%` on ints). -/
def minutesToHHMM (totalMinutes : ℤ) : String :=
  pad02 (Int.fdiv totalMinutes 60) ++ ":" ++ pad02 (Int.fmod totalMinutes 60)

/-- `calculate_daily_totals` (src/cat_flap_extractor_v5.py:201). -/
def calculate_daily_totals (sessionsForDay : List Session) : DailyTotals :=
  if sessionsForDay.isEmpty then ⟨0, "00:00"⟩
  else
    let visitCount := sessionsForDay.countP (fun s => pyTruthyStr s.exit_time)
    let totalMinutes := (sessionsForDay.map (fun s => sessionMinutes s.duration)).sum
    ⟨visitCount, minutesToHHMM totalMinutes⟩

/-! ## Cross-year / date resolver -/

/-- `strptime` month abbreviations (`%b`, C locale, case-insensitive). -/
def monthAbbrNum? (s : String) : Option ℕ :=
  match pyLower s with
  | "jan" => some 1 | "feb" => some 2 | "mar" => some 3 | "apr" => some 4
  | "may" => some 5 | "jun" => some 6 | "jul" => some 7 | "aug" => some 8
  | "sep" => some 9 | "oct" => some 10 | "nov" => some 11 | "dec" => some 12
  | _ => none

/-- `strptime` full month names (`%B`, C locale, case-insensitive). -/
def monthFullNum? (s : String) : Option ℕ :=
  match pyLower s with
  | "january" => some 1 | "february" => some 2 | "march" => some 3
  | "april" => some 4 | "may" => some 5 | "june" => some 6 | "july" => some 7
  | "august" => some 8 | "september" => some 9 | "october" => some 10
  | "november" => some 11 | "december" => some 12
  | _ => none

/-- Gregorian leap year (Python `%` on ints is floor-mod, as is `Int.emod`). -/
def isLeapYear (y : ℤ) : Bool := (y % 4 = 0 && y % 100 ≠ 0) || y % 400 = 0

/-- Days in a month, as validated by `datetime.strptime`. -/
def daysInMonth (y : ℤ) (m : ℕ) : ℕ :=
  if m = 2 then (if isLeapYear y then 29 else 28)
  else if m = 4 ∨ m = 6 ∨ m = 9 ∨ m = 11 then 30 else 31

/-- The `%d` field of `strptime`: one or two decimal digits. -/
def parseDayField? (s : String) : Option ℕ :=
  if s.data.length = 0 ∨ s.data.length > 2 then none else pyDigits? s

/-- `datetime.strptime(f"{day} {month} {year}", "%d %b %Y")` (or `%B` when
`useAbbr` is false), returning the validated (year, month, day) triple.  The
year is threaded as the integer the caller formatted in. -/
def strptimeDayMonthYear (dayStr monthStr : String) (year : ℤ) (useAbbr : Bool) :
    Option (ℤ × ℕ × ℕ) :=
  match parseDayField? dayStr,
        (if useAbbr then monthAbbrNum? monthStr else monthFullNum? monthStr) with
  | some d, some m =>
      if 1 ≤ d ∧ d ≤ daysInMonth year m then some (year, m, d) else none
  | _, _ => none

/-- `strftime("%Y-%m-%d")`. -/
def formatYMD (ymd : ℤ × ℕ × ℕ) : String :=
  pad04 ymd.1 ++ "-" ++ pad02 (ymd.2.1 : ℤ) ++ "-" ++ pad02 (ymd.2.2 : ℤ)

/-- Shared worker of `convert_date_str_to_full_date` and
`parse_date_str_to_datetime`: 'Mon 26 Aug' plus a report year to a
(year, month, day) triple (src/cat_flap_extractor_v5.py:41). -/
def dateTriple? (dateStr : Option String) (reportYear : Option ℤ) : Option (ℤ × ℕ × ℕ) :=
  if !(pyTruthyStr dateStr) || !(pyTruthyInt reportYear) then none
  else
    let y := reportYear.getD 0
    match pySplitWS (pyStrip (dateStr.getD "")) with
    | _ :: day :: month :: _ =>
      match strptimeDayMonthYear day month y true with
      | some ymd => some ymd
      | none =>
        match strptimeDayMonthYear day month y false with
        | some ymd => some ymd
        | none => none
    | _ => none

/-- `convert_date_str_to_full_date` (src/cat_flap_extractor_v5.py:41):
'Mon 26 Aug' with a report year to "YYYY-MM-DD". -/
def convert_date_str_to_full_date (dateStr : Option String) (reportYear : Option ℤ) :
    Option String :=
  (dateTriple? dateStr reportYear).map formatYMD

/-- `parse_date_str_to_datetime` (src/cat_flap_extractor_v5.py:70): the
source formats the date to "YYYY-MM-DD" and re-parses it with `strptime`;
that round-trip is the identity on the (positive-year) triples in scope, so
the embedding returns the triple directly. -/
def parse_date_str_to_datetime (dateStr : Option String) (reportYear : Option ℤ) :
    Option (ℤ × ℕ × ℕ) :=
  dateTriple? dateStr reportYear

/-- Lexicographic order on (year, month, day) triples (how `datetime`
objects compare). -/
def dateLEb (a b : ℤ × ℕ × ℕ) : Bool :=
  a.1 < b.1 || (a.1 = b.1 && (a.2.1 < b.2.1 || (a.2.1 = b.2.1 && a.2.2 ≤ b.2.2)))

/-- Sort key comparison used by `sorted(..., key=... or datetime.min)`:
an unparseable date sorts first (as `datetime.min` does). -/
def optDateLEb : Option (ℤ × ℕ × ℕ) → Option (ℤ × ℕ × ℕ) → Bool
  | none, _ => true
  | some _, none => false
  | some a, some b => dateLEb a b

/-! ## Session building engine -/

/-- Python `abs` on an int. -/
def intAbs (n : ℤ) : ℤ := if n < 0 then -n else n

/-- A collected single-timestamp observation (the dicts gathered by the
cross-midnight scan of `build_sessions_with_enhanced_validation`). -/
structure SingleTS where
  date_str : String
  timestamp : String
  duration : Option String
deriving DecidableEq

/-- Python dict lookup on an association list (keys unique by construction:
`dictInsert` overwrites in place). -/
def dictFind? (d : List (String × String)) (k : String) : Option String :=
  (d.find? (fun p => p.1 == k)).map Prod.snd

/-- Python dict assignment: overwrite in place if present, else append. -/
def dictInsert (d : List (String × String)) (k v : String) : List (String × String) :=
  if (d.find? (fun p => p.1 == k)).isSome then
    d.map (fun p => if p.1 == k then (k, v) else p)
  else d ++ [(k, v)]

/-- Lookup in the `daily_data` dict. -/
def dayDataFind? (dd : DailyData) (k : String) : Option DayData :=
  (dd.find? (fun p => p.1 == k)).map Prod.snd

/-- `determine_single_timestamp_type` with its confidence-trail side effect
(`self.confidence_issues.append`); the result component agrees with the
pure `determine_single_timestamp_type` above. -/
def determine_single_timestamp_type_m (timestamp durationStr : Option String)
    (dateStr pdfFilename : String) (st : ExtractorState) : String × ExtractorState :=
  if !(pyTruthyStr timestamp) || !(pyTruthyStr durationStr) then ("entry", st)
  else
    match parse_duration_hours durationStr with
    | none => ("entry", st)
    | some durationHours =>
      match parse_timestamp_to_minutes timestamp with
      | none => ("entry", st)
      | some timestampMinutes =>
        if timestampMinutes < 12 * 60 ∧ durationHours < 12 then
          if pyAbs (qsub durationHours (pyDiv (timestampMinutes : ℚ) 60)) < tolHalf then
            ("entry",
             { st with confidence_issues := st.confidence_issues ++
                 [pdfFilename ++ " - " ++ dateStr ++ ": " ++ timestamp.getD "" ++ " + " ++
                  durationStr.getD "" ++ " = ENTRY (since midnight pattern)"] })
          else ("exit", st)
        else if ¬ (timestampMinutes < 12 * 60) ∧ durationHours < 12 then
          if pyAbs (qsub durationHours (pyDiv ((24 * 60 - timestampMinutes : ℤ) : ℚ) 60)) < tolHalf
          then
            ("exit",
             { st with confidence_issues := st.confidence_issues ++
                 [pdfFilename ++ " - " ++ dateStr ++ ": " ++ timestamp.getD "" ++ " + " ++
                  durationStr.getD "" ++ " = EXIT (until midnight pattern)"] })
          else ("entry", st)
        else if durationHours ≥ 12 then
          (if timestampMinutes < 12 * 60 then "entry" else "exit", st)
        else
          (if timestampMinutes < 12 * 60 then "entry" else "exit", st)

/-- The pairing condition of the cross-midnight scan inside
`build_sessions_with_enhanced_validation` (src/cat_flap_extractor_v5.py:649).
Note the Python truthiness tests (`if today_mins and tomorrow_mins`,
`if today_duration and tomorrow_duration`) under which a parsed value of `0`
or `0.0` fails, and the strict `>` against the 20:00 threshold. -/
def crossMidnightCond (today tomorrow : SingleTS) : Bool :=
  let todayMins := parse_timestamp_to_minutes (some today.timestamp)
  let tomorrowMins := parse_timestamp_to_minutes (some tomorrow.timestamp)
  pyTruthyInt todayMins && pyTruthyInt tomorrowMins &&
    decide (todayMins.getD 0 > 20 * 60) && decide (tomorrowMins.getD 0 < 8 * 60) &&
    (let todayDuration := parse_duration_hours today.duration
     let tomorrowDuration := parse_duration_hours tomorrow.duration
     pyTruthyRat todayDuration && pyTruthyRat tomorrowDuration &&
       (let minsToMidnight := 24 * 60 - todayMins.getD 0
        decide (pyAbs (qsub (todayDuration.getD 0) (pyDiv (minsToMidnight : ℚ) 60)) < tolHalf) &&
        decide (pyAbs (qsub (tomorrowDuration.getD 0) (pyDiv ((tomorrowMins.getD 0 : ℤ) : ℚ) 60))
                  < tolHalf)))

/-- Key of the `cross_midnight_pairs` dict. -/
def crossKey (s : SingleTS) : String := s.date_str ++ "_" ++ s.timestamp

/-- Confidence message recorded when a cross-midnight pair is detected. -/
def crossMidnightMsg (pdfFilename : String) (today tomorrow : SingleTS) : String :=
  pdfFilename ++ ": Cross-midnight session detected - " ++ today.date_str ++ " " ++
    today.timestamp ++ " (EXIT) → " ++ tomorrow.date_str ++ " " ++ tomorrow.timestamp ++
    " (ENTRY)"

/-- The `for i in range(len(single_timestamps) - 1)` scan building
`cross_midnight_pairs`, threading the pairs dict and the state. -/
def crossMidnightLoop (pdfFilename : String) :
    List SingleTS → List (String × String) × ExtractorState →
    List (String × String) × ExtractorState
  | a :: b :: rest, (d, st) =>
    crossMidnightLoop pdfFilename (b :: rest)
      (if crossMidnightCond a b then
        (dictInsert (dictInsert d (crossKey a) "exit") (crossKey b) "entry",
         { st with confidence_issues := st.confidence_issues ++ [crossMidnightMsg pdfFilename a b] })
      else (d, st))
  | _, acc => acc

/-- `report_year or 2024` (Python `or`: `None` and `0` fall back). -/
def yearOrDefault (reportYear : Option ℤ) : ℤ :=
  match reportYear with
  | some v => if v ≠ 0 then v else 2024
  | none => 2024

/-- Stable insertion into a sorted list (an element is placed before the
first entry it compares `le` to, so earlier-listed equals stay first). -/
def stableInsert {α : Type} (le : α → α → Bool) (x : α) : List α → List α
  | [] => [x]
  | y :: ys => if le x y then x :: y :: ys else y :: stableInsert le x ys

/-- Stable sort by a total boolean comparison — extensionally the stable
sort Python's `sorted` performs, and kernel-evaluable. -/
def stableSort {α : Type} (le : α → α → Bool) : List α → List α
  | [] => []
  | x :: xs => stableInsert le x (stableSort le xs)

/-- The chronologically sorted `date_keys`: stable sort of the dict keys by
parsed date, unparseable labels first (their key is `datetime.min`). -/
def sortedDateKeys (dd : DailyData) (reportYear : Option ℤ) : List String :=
  stableSort (fun d1 d2 =>
    optDateLEb (parse_date_str_to_datetime (some d1) (some (yearOrDefault reportYear)))
               (parse_date_str_to_datetime (some d2) (some (yearOrDefault reportYear))))
    (dd.map Prod.fst)

/-- Single-timestamp collection pass of
`build_sessions_with_enhanced_validation` (sorted days, in-table order
within a day; the `'time_duration_pairs' in day_data` test of the source
cannot fail in the typed model). -/
def collectSingles (dd : DailyData) (dateKeys : List String) : List SingleTS :=
  (dateKeys.map (fun dateStr =>
    match dayDataFind? dd dateStr with
    | none => []
    | some day => day.time_duration_pairs.filterMap (fun p =>
        match p with
        | .singleTimestamp ts dur => some ⟨dateStr, ts, dur⟩
        | _ => none))).flatten

/-- Body of the inner `for pair in day_data['time_duration_pairs']` loop of
the session construction: appends one session for the pair (a complete
session, or a single timestamp classified through the cross-midnight dict
or the resolver), bumping the 1-based session counter. -/
def buildPairStep (crossPairs : List (String × String)) (pdfFilename dateStr : String)
    (day : DayData) (acc : List Session × ℕ × ExtractorState) (pair : TimeDurationPair) :
    List Session × ℕ × ExtractorState :=
  match pair with
  | .completeSession exitT entryT dur =>
    (acc.1 ++ [{ date_str := dateStr, session_number := acc.2.1,
                 exit_time := some exitT, entry_time := some entryT, duration := dur,
                 daily_total_visits_PDF := day.daily_visits,
                 daily_total_time_outside_PDF := day.daily_total_time,
                 daily_total_visits_calculated := none,
                 daily_total_time_outside_calculated := none, date_full := none }],
     acc.2.1 + 1, acc.2.2)
  | .singleTimestamp ts dur =>
    let tyst :=
      match dictFind? crossPairs (dateStr ++ "_" ++ ts) with
      | some v => (v, acc.2.2)
      | none => determine_single_timestamp_type_m (some ts) dur dateStr pdfFilename acc.2.2
    if tyst.1 = "exit" then
      (acc.1 ++ [{ date_str := dateStr, session_number := acc.2.1,
                   exit_time := some ts, entry_time := none, duration := dur,
                   daily_total_visits_PDF := day.daily_visits,
                   daily_total_time_outside_PDF := day.daily_total_time,
                   daily_total_visits_calculated := none,
                   daily_total_time_outside_calculated := none, date_full := none }],
       acc.2.1 + 1, tyst.2)
    else
      (acc.1 ++ [{ date_str := dateStr, session_number := acc.2.1,
                   exit_time := none, entry_time := some ts, duration := dur,
                   daily_total_visits_PDF := day.daily_visits,
                   daily_total_time_outside_PDF := day.daily_total_time,
                   daily_total_visits_calculated := none,
                   daily_total_time_outside_calculated := none, date_full := none }],
       acc.2.1 + 1, tyst.2)

/-- One day's session construction (the inner `for pair in
day_data['time_duration_pairs']` loop, with its 1-based session counter). -/
def buildDaySessions (crossPairs : List (String × String)) (pdfFilename dateStr : String)
    (day : DayData) (st : ExtractorState) : List Session × ExtractorState :=
  let r := day.time_duration_pairs.foldl
    (buildPairStep crossPairs pdfFilename dateStr day) ([], 1, st)
  (r.1, r.2.2)

/-- Body of the outer `for date_str in date_keys` loop (one day's sessions
appended; a key absent from the dict is skipped — unreachable in the typed
model since the keys come from the dict itself). -/
def buildDayFold (dd : DailyData) (crossPairs : List (String × String)) (pdfFilename : String)
    (acc : List Session × ExtractorState) (dateStr : String) : List Session × ExtractorState :=
  match dayDataFind? dd dateStr with
  | none => acc
  | some day =>
    let r := buildDaySessions crossPairs pdfFilename dateStr day acc.2
    (acc.1 ++ r.1, r.2)

/-- The outer `for date_str in date_keys` loop of the session construction. -/
def buildAllDays (dd : DailyData) (crossPairs : List (String × String))
    (pdfFilename : String) (dateKeys : List String) (st : ExtractorState) :
    List Session × ExtractorState :=
  dateKeys.foldl (buildDayFold dd crossPairs pdfFilename) ([], st)

/-- Attach the calculated daily totals to every session of its day: the
source groups the freshly built sessions into `sessions_by_date` (insertion
order) and mutates each group's sessions in place; updating each session
from the per-date filter of the same list is the same net transformation. -/
def attachCalculatedTotals (sessions : List Session) : List Session :=
  sessions.map (fun s =>
    let totals := calculate_daily_totals (sessions.filter (fun t => t.date_str == s.date_str))
    { s with daily_total_visits_calculated := some totals.visits,
             daily_total_time_outside_calculated := some totals.time_outside })

/-- `build_sessions_with_enhanced_validation` (src/cat_flap_extractor_v5.py:627). -/
def build_sessions_with_enhanced_validation (dd : DailyData) (pdfFilename : String)
    (reportYear : Option ℤ) (st : ExtractorState) : List Session × ExtractorState :=
  let dateKeys := sortedDateKeys dd reportYear
  let singles := collectSingles dd dateKeys
  let cp := crossMidnightLoop pdfFilename singles ([], st)
  let built := buildAllDays dd cp.1 pdfFilename dateKeys cp.2
  (attachCalculatedTotals built.1, built.2)

/-! ## Validation (defined in the source, but never called by `process_pdf`) -/

/-- Per-date complete-session count of `validate_sessions_with_tolerance`
(sessions with truthy exit AND entry time). -/
def countCompleteSessions (sessions : List Session) (dateStr : String) : ℕ :=
  sessions.countP (fun s =>
    s.date_str == dateStr && pyTruthyStr s.exit_time && pyTruthyStr s.entry_time)

/-- The per-day comparison step of `validate_sessions_with_tolerance`
(src/cat_flap_extractor_v5.py:474): graded diagnostics for a visit-count
mismatch. -/
def validateDayStep (pdfFilename : String) (extractedCount : ℕ) (dateStr : String)
    (reportedCount : ℤ) (st : ExtractorState) : ExtractorState :=
  let difference := intAbs ((extractedCount : ℤ) - reportedCount)
  if difference > 2 ∨ (reportedCount > 0 ∧ (extractedCount : ℤ) > reportedCount * 2) then
    { st with state_issues := st.state_issues ++
        [pdfFilename ++ " - " ++ dateStr ++ ": Significant mismatch - extracted " ++
         toString extractedCount ++ " complete sessions but PDF reports " ++
         toString reportedCount ++ " visits (diff: " ++ toString difference ++ ")"] }
  else if difference > 1 then
    { st with warnings := st.warnings ++
        [pdfFilename ++ " - " ++ dateStr ++ ": Minor visit count difference - extracted " ++
         toString extractedCount ++ ", reported " ++ toString reportedCount] }
  else st

/-- `validate_sessions_with_tolerance` (src/cat_flap_extractor_v5.py:474). -/
def validate_sessions_with_tolerance (sessions : List Session) (dd : DailyData)
    (pdfFilename : String) (st : ExtractorState) : ExtractorState :=
  dd.foldl (fun st p =>
    match p.2.daily_visits with
    | none => st
    | some reported =>
        validateDayStep pdfFilename (countCompleteSessions sessions p.1) p.1 reported st) st

/-- The post-extraction pipeline of `process_pdf`
(src/cat_flap_extractor_v5.py:757): session construction and `date_full`
assignment on already-extracted `daily_data`.  Document extraction and the
pure `report_date_range` metadata string are outside the modelled core;
`validate_sessions_with_tolerance` is not invoked anywhere on this path,
mirroring the source. -/
def processPdfCore (dd : DailyData) (reportYear : Option ℤ) (pdfFilename : String)
    (st : ExtractorState) : Option (List Session) × ExtractorState :=
  if dd.isEmpty then
    (none, { st with warnings := st.warnings ++ ["No time data found in " ++ pdfFilename] })
  else
    let built := build_sessions_with_enhanced_validation dd pdfFilename reportYear st
    if built.1.isEmpty then
      (none,
       { built.2 with warnings := built.2.warnings ++ ["No sessions built from " ++ pdfFilename] })
    else
      (some (built.1.map (fun s =>
        if pyTruthyInt reportYear then
          { s with date_full := convert_date_str_to_full_date (some s.date_str) reportYear }
        else s)), built.2)

/-! ## Faithful binary64 rounding model

Python floats are IEEE-754 binary64.  For the claim whose truth value changes
under double rounding, the arithmetic is modelled exactly: every operation
computes the true rational result and rounds it to 53 significant bits,
round-to-nearest ties-to-even.  All values handled here are well inside the
normal range, so overflow and subnormals do not arise and are not modelled. -/

/-- Floor-log2 with fuel (kernel-evaluable; fuel 128 covers every numerator
and denominator occurring here). -/
def log2Fuel : ℕ → ℕ → ℕ
  | 0, _ => 0
  | fuel + 1, n => if n ≤ 1 then 0 else 1 + log2Fuel fuel (n / 2)

/-- 2^e for an integer exponent, kernel-evaluable. -/
def pow2Q : ℤ → ℚ
  | .ofNat n => ((2 ^ n : ℕ) : ℚ)
  | .negSucc n => mkRat 1 (2 ^ (n + 1))

/-- Round a rational to the nearest integer, ties to even. -/
def rne (q : ℚ) : ℤ :=
  let f := Int.fdiv q.num (q.den : ℤ)
  let r := qsub q (f : ℚ)
  if r < tolHalf then f else if tolHalf < r then f + 1 else if f % 2 = 0 then f else f + 1

/-- For nonzero `q`: the scaling exponent `e` with `2^52 ≤ |q|·2^(−e) < 2^53`. -/
def floatExp (q : ℚ) : ℤ :=
  let c : ℤ := (log2Fuel 128 q.num.natAbs : ℤ) - (log2Fuel 128 q.den : ℤ) - 52
  if pyAbs q < qmul (((2 ^ 52 : ℕ) : ℤ) : ℚ) (pow2Q c) then c - 1 else c

/-- Round a rational to the nearest binary64 value. -/
def fl (q : ℚ) : ℚ :=
  if q = 0 then 0
  else qmul ((rne (qmul q (pow2Q (-(floatExp q)))) : ℤ) : ℚ) (pow2Q (floatExp q))

/-- `parse_duration_hours` under exact binary64 semantics: the same control
flow with every float operation (`/`, `+`, the `float()` literal) rounded by
`fl`. -/
def parse_duration_hours_float (durationStr : Option String) : Option ℚ :=
  match durationStr with
  | none => none
  | some s0 =>
    if s0 = "" || pyStrip s0 = "" then none
    else
      let s := pyLower (pyStrip s0)
      if pyContainsChar s 'h' then
        let hoursPart := pyStrip ((pySplitOn s "h").headD "")
        if pyContainsChar hoursPart ':' then
          match pySplitOn hoursPart ":" with
          | [h, m] =>
            match pyInt? h, pyInt? m with
            | some a, some b => some (fl (qadd (a : ℚ) (fl (pyDiv (b : ℚ) 60))))
            | _, _ => none
          | _ => none
        else (pyFloat? hoursPart).map fl
      else if hasSubstr s "min" then
        let minsPart := pyStrip ((pySplitOn s "min").headD "")
        if pyContainsChar minsPart ':' then
          match pySplitOn minsPart ":" with
          | [m, sec] =>
            match pyInt? m, pyInt? sec with
            | some a, some b => some (fl (pyDiv (fl (qadd (a : ℚ) (fl (pyDiv (b : ℚ) 60)))) 60))
            | _, _ => none
          | _ => none
        else (pyFloat? minsPart).map (fun v => fl (pyDiv (fl v) 60))
      else if pyContainsChar s 's' then
        let secsPart := pyStrip ((pySplitOn s "s").headD "")
        (pyFloat? secsPart).map (fun v => fl (pyDiv (fl v) 3600))
      else none

/-- `convert_duration_to_hhmm` under exact binary64 semantics. -/
def convert_duration_to_hhmm_float (durationStr : Option String) : Option String :=
  match parse_duration_hours_float durationStr with
  | none => none
  | some hours => some (minutesToHHMM (pyTruncInt (fl (qmul hours 60))))

/-! ## Cross-year boundary handling (spec-modelled)

`test_critical_functionality.py` exercises an extractor method
`detect_cross_year_boundary` and December-to-previous-year date resolution,
and `fix_cross_year_data.py` documents December dates "incorrectly assigned
2025 instead of 2024"; the method itself is not among the sources. -/

/-- Lexicographic code-point order on character lists. -/
def charListLt : List Char → List Char → Bool
  | [], [] => false
  | [], _ :: _ => true
  | _ :: _, [] => false
  | a :: as, b :: bs => a.toNat < b.toNat || (a.toNat = b.toNat && charListLt as bs)

/-- Python `<` on strings (lexicographic by code point) — the order used
when the pipeline sorts records by their "YYYY-MM-DD" `date_full` strings. -/
def pyStrLt (a b : String) : Bool := charListLt a.data b.data

/-- Month token of a day label ('Mon 30 Dec' → "Dec"): its third
whitespace-separated field. -/
def labelMonthToken? (label : String) : Option String :=
  match pySplitWS (pyStrip label) with
  | _ :: _ :: m :: _ => some m
  | _ => none

/-- Result shape of `detect_cross_year_boundary`, as asserted by
`test_critical_functionality.py`. -/
structure CrossYearInfo where
  cross_year_detected : Bool
  december_year : ℤ
  january_year : ℤ
deriving DecidableEq

/-- Modelled from the spec: `detect_cross_year_boundary` (exercised by
`test_critical_functionality.py`, absent from the sources).  Spec §4.5: a
report crosses the year boundary when its day-label set contains both "Dec"
and "Jan" labels; December then resolves to `reportYear − 1` and January to
`reportYear`. -/
def detect_cross_year_boundary (dateStrs : List String) (reportYear : ℤ) : CrossYearInfo :=
  let hasDec := dateStrs.any (fun l => labelMonthToken? l == some "Dec")
  let hasJan := dateStrs.any (fun l => labelMonthToken? l == some "Jan")
  { cross_year_detected := hasDec && hasJan,
    december_year := reportYear - 1,
    january_year := reportYear }

/-- Modelled from the spec: cross-year-aware date resolution (spec §4.5) —
resolve a day label against the report year, using `reportYear − 1` for
December labels of a report whose label set spans the Dec/Jan boundary, and
the source's `convert_date_str_to_full_date` for the label-to-date step. -/
def resolveDateCrossYear (label : String) (reportYear : ℤ) (labels : List String) :
    Option String :=
  let info := detect_cross_year_boundary labels reportYear
  let y := if info.cross_year_detected && labelMonthToken? label == some "Dec" then
             info.december_year
           else info.january_year
  convert_date_str_to_full_date (some label) (some y)

/-- The spec's cross-year example labels. -/
def crossYearExampleLabels : List String := ["Mon 30 Dec", "Tue 31 Dec", "Wed 1 Jan"]

/-! ### Shape and frame lemmas for the session builder -/

/-- A freshly built (pre-writeback) session's relation to the table pair it
was constructed from. -/
def SessionMatchesPair (dateStr : String) (day : DayData) (pair : TimeDurationPair)
    (s : Session) : Prop :=
  s.date_str = dateStr ∧
  s.daily_total_visits_PDF = day.daily_visits ∧
  s.daily_total_time_outside_PDF = day.daily_total_time ∧
  s.daily_total_visits_calculated = none ∧
  s.daily_total_time_outside_calculated = none ∧
  s.date_full = none ∧
  (match pair with
   | .completeSession e en du =>
       s.exit_time = some e ∧ s.entry_time = some en ∧ s.duration = du
   | .singleTimestamp t du => s.duration = du ∧
       ((s.exit_time = some t ∧ s.entry_time = none) ∨
        (s.exit_time = none ∧ s.entry_time = some t)))

/-- The diagnostic fields other than the confidence trail. -/
def framePreserved (a b : ExtractorState) : Prop :=
  a.errors = b.errors ∧ a.warnings = b.warnings ∧ a.state_issues = b.state_issues

/-! ### Daily aggregation (claim C5) -/

/-- The specification's reading of `calculatedTimeOutside` (§4.6): sum the
parsed session durations first, then format the total as HH:MM truncated to
whole minutes. -/
def specCalculatedTimeOutside (sessionsForDay : List Session) : String :=
  let total := (sessionsForDay.map
    (fun s => (parse_duration_hours s.duration).getD 0)).foldl qadd 0
  minutesToHHMM (pyTruncInt (qmul total 60))

/-- An extraction-produced pair never carries an empty-string time: emitted
cells are `strip()`ped non-empty table text. -/
def goodPair : TimeDurationPair → Bool
  | .completeSession e en _ => e ≠ "" && en ≠ ""
  | .singleTimestamp t _ => t ≠ ""

/-! ## Theorems -/

/-! ## Bridge lemmas from the kernel-evaluable wrappers to the field ops -/

theorem qadd_eq (a b : ℚ) : qadd a b = a + b := by
  have h1 : (a.den : ℚ) ≠ 0 := by exact_mod_cast a.den_ne_zero
  have h2 : (b.den : ℚ) ≠ 0 := by exact_mod_cast b.den_ne_zero
  have ea : (a.num : ℚ) = a * a.den := (div_eq_iff h1).mp (Rat.num_div_den a)
  have eb : (b.num : ℚ) = b * b.den := (div_eq_iff h2).mp (Rat.num_div_den b)
  rw [qadd, Rat.divInt_eq_div]
  push_cast
  rw [div_eq_iff (by exact mul_ne_zero h1 h2), ea, eb]
  ring

theorem qsub_eq (a b : ℚ) : qsub a b = a - b := by
  have h1 : (a.den : ℚ) ≠ 0 := by exact_mod_cast a.den_ne_zero
  have h2 : (b.den : ℚ) ≠ 0 := by exact_mod_cast b.den_ne_zero
  have ea : (a.num : ℚ) = a * a.den := (div_eq_iff h1).mp (Rat.num_div_den a)
  have eb : (b.num : ℚ) = b * b.den := (div_eq_iff h2).mp (Rat.num_div_den b)
  rw [qsub, Rat.divInt_eq_div]
  push_cast
  rw [div_eq_iff (by exact mul_ne_zero h1 h2), ea, eb]
  ring

theorem qmul_eq (a b : ℚ) : qmul a b = a * b := by
  have h1 : (a.den : ℚ) ≠ 0 := by exact_mod_cast a.den_ne_zero
  have h2 : (b.den : ℚ) ≠ 0 := by exact_mod_cast b.den_ne_zero
  have ea : (a.num : ℚ) = a * a.den := (div_eq_iff h1).mp (Rat.num_div_den a)
  have eb : (b.num : ℚ) = b * b.den := (div_eq_iff h2).mp (Rat.num_div_den b)
  rw [qmul, Rat.divInt_eq_div]
  push_cast
  rw [div_eq_iff (by exact mul_ne_zero h1 h2), ea, eb]
  ring

theorem pyDiv_eq (a b : ℚ) (hb : b ≠ 0) : pyDiv a b = a / b := by
  have h1 : (a.den : ℚ) ≠ 0 := by exact_mod_cast a.den_ne_zero
  have h2 : (b.den : ℚ) ≠ 0 := by exact_mod_cast b.den_ne_zero
  have h3 : (b.num : ℚ) ≠ 0 := by exact_mod_cast Rat.num_ne_zero.mpr hb
  have ea : (a.num : ℚ) = a * a.den := (div_eq_iff h1).mp (Rat.num_div_den a)
  have eb : (b.num : ℚ) = b * b.den := (div_eq_iff h2).mp (Rat.num_div_den b)
  rw [pyDiv, Rat.divInt_eq_div]
  push_cast
  rw [div_eq_div_iff (by exact mul_ne_zero h1 h3) hb, ea, eb]
  ring

theorem pyAbs_eq (q : ℚ) : pyAbs q = |q| := by
  rw [pyAbs]
  split
  · rw [abs_of_neg]; assumption
  · rw [abs_of_nonneg]; exact not_lt.mp (by assumption)

theorem tolHalf_eq : tolHalf = 1/2 := by
  rw [tolHalf, Rat.mkRat_eq_div]
  norm_num

theorem intAbs_eq (n : ℤ) : intAbs n = |n| := by
  rw [intAbs]
  split
  · rw [abs_of_neg]; assumption
  · rw [abs_of_nonneg]; exact not_lt.mp (by assumption)

/-! ## Helper lemmas -/

theorem parse_duration_some_truthy (ds : Option String) (q : ℚ)
    (h : parse_duration_hours ds = some q) : pyTruthyStr ds = true := by
  cases ds with
  | none => simp [parse_duration_hours] at h
  | some s =>
    by_cases hs : s = ""
    · subst hs; simp [parse_duration_hours] at h
    · simp [pyTruthyStr, hs]

theorem parse_timestamp_some_truthy (ts : Option String) (n : ℤ)
    (h : parse_timestamp_to_minutes ts = some n) : pyTruthyStr ts = true := by
  cases ts with
  | none => simp [parse_timestamp_to_minutes] at h
  | some s =>
    by_cases hs : s = ""
    · subst hs; simp [parse_timestamp_to_minutes] at h
    · simp [pyTruthyStr, hs]

theorem append_singleton_ne {α : Type} (l : List α) (a : α) : l ++ [a] ≠ l := by
  intro h
  have := congrArg List.length h
  simp at this

/-! ## Claims -/

/-- C1: code-bug evidence.  For any observation whose duration parses to at
least 12 hours, `determine_single_timestamp_type` ignores the midnight-match
tolerance tests entirely and falls back to time-of-day; in particular
`classify("05:58", "18:00 h")` evaluates to "entry", although the
repository's own tests (`test_long_duration_fix.py`,
`test_critical_functionality.py`) assert "exit" for exactly this input (an
until-midnight match: 24:00 − 05:58 = 18:02 ≈ 18:00), as does the claim. -/
theorem C1_long_duration_ignores_midnight_match (ts ds : Option String) (dq : ℚ) (tm : ℤ)
    (hd : parse_duration_hours ds = some dq)
    (ht : parse_timestamp_to_minutes ts = some tm)
    (hlong : 12 ≤ dq) :
    determine_single_timestamp_type ts ds = (if tm < 720 then "entry" else "exit") ∧
    determine_single_timestamp_type (some "05:58") (some "18:00 h") = "entry" := by
  have hts := parse_timestamp_some_truthy ts tm ht
  have hds := parse_duration_some_truthy ds dq hd
  refine ⟨?_, by decide⟩
  unfold determine_single_timestamp_type
  rw [hts, hds]
  simp only [hd, ht, Bool.not_true, Bool.or_self, Bool.false_eq_true, if_false]
  have hns : ¬ dq < 12 := not_lt.mpr hlong
  rw [if_neg (by tauto : ¬ (tm < 12 * 60 ∧ dq < 12))]
  rw [if_neg (by tauto : ¬ (¬ tm < 12 * 60 ∧ dq < 12))]
  rw [if_pos (by exact hlong : dq ≥ 12)]
  norm_num

/-- C1 witness: the long-duration theorem applied at the failing input. -/
theorem C1_witness :
    determine_single_timestamp_type (some "05:58") (some "18:00 h") =
      (if (358 : ℤ) < 720 then "entry" else "exit") :=
  (C1_long_duration_ignores_midnight_match (some "05:58") (some "18:00 h") 18 358
    (by decide) (by decide) (by decide)).1

/-- C4: for a parsed observation with duration under 12 hours, the morning
branch classifies "entry" exactly when the duration matches the time since
midnight within 0.5 h, and the non-morning branch classifies "exit" exactly
when it matches the time until midnight within 0.5 h; in particular
`classify("22:24", "01:35 h")` is "exit". -/
theorem C4_short_duration_rule (ts ds : Option String) (dq : ℚ) (tm : ℤ)
    (hd : parse_duration_hours ds = some dq)
    (ht : parse_timestamp_to_minutes ts = some tm)
    (hshort : dq < 12) :
    (tm < 720 →
      (determine_single_timestamp_type ts ds = "entry" ↔ |dq - (tm : ℚ) / 60| < 1/2)) ∧
    (¬ tm < 720 →
      (determine_single_timestamp_type ts ds = "exit" ↔ |dq - (1440 - (tm : ℚ)) / 60| < 1/2)) ∧
    determine_single_timestamp_type (some "22:24") (some "01:35 h") = "exit" := by
  have hts := parse_timestamp_some_truthy ts tm ht
  have hds := parse_duration_some_truthy ds dq hd
  refine ⟨?_, ?_, by decide⟩
  · intro hm
    unfold determine_single_timestamp_type
    rw [hts, hds]
    simp only [hd, ht, Bool.not_true, Bool.or_self, Bool.false_eq_true, if_false]
    rw [if_pos (⟨by omega, hshort⟩ : tm < 12 * 60 ∧ dq < 12)]
    rw [show qsub dq (pyDiv (tm : ℚ) 60) = dq - (tm : ℚ) / 60 by
          rw [qsub_eq, pyDiv_eq _ _ (by norm_num)]]
    rw [pyAbs_eq, tolHalf_eq]
    by_cases htol : |dq - (tm : ℚ) / 60| < 1/2
    · rw [if_pos htol]; exact iff_of_true rfl htol
    · rw [if_neg htol]; exact iff_of_false (by decide) htol
  · intro hm
    unfold determine_single_timestamp_type
    rw [hts, hds]
    simp only [hd, ht, Bool.not_true, Bool.or_self, Bool.false_eq_true, if_false]
    rw [if_neg (by tauto : ¬ (tm < 12 * 60 ∧ dq < 12))]
    rw [if_pos (⟨by omega, hshort⟩ : ¬ tm < 12 * 60 ∧ dq < 12)]
    rw [show qsub dq (pyDiv ((24 * 60 - tm : ℤ) : ℚ) 60) = dq - (1440 - (tm : ℚ)) / 60 by
          rw [qsub_eq, pyDiv_eq _ _ (by norm_num)]
          push_cast
          ring]
    rw [pyAbs_eq, tolHalf_eq]
    by_cases htol : |dq - (1440 - (tm : ℚ)) / 60| < 1/2
    · rw [if_pos htol]; exact iff_of_true rfl htol
    · rw [if_neg htol]; exact iff_of_false (by decide) htol

/-- C4 witness: the short-duration rule applied at the evening example. -/
theorem C4_witness :
    ¬ (1344 : ℤ) < 720 ∧
    (determine_single_timestamp_type (some "22:24") (some "01:35 h") = "exit" ↔
      |(mkRat 19 12 : ℚ) - (1440 - ((1344 : ℤ) : ℚ)) / 60| < 1/2) :=
  ⟨by decide,
   (C4_short_duration_rule (some "22:24") (some "01:35 h") (mkRat 19 12) 1344
     (by decide) (by decide) (by decide)).2.1 (by decide)⟩

/-- C7: whenever the timestamp or the duration text is missing (Python-falsy)
or fails to parse, the classifier returns "entry", regardless of any other
evidence. -/
theorem C7_missing_evidence_defaults_entry (ts ds : Option String)
    (h : pyTruthyStr ts = false ∨ pyTruthyStr ds = false ∨
         parse_duration_hours ds = none ∨ parse_timestamp_to_minutes ts = none) :
    determine_single_timestamp_type ts ds = "entry" := by
  unfold determine_single_timestamp_type
  rcases h with h | h | h | h
  · rw [h]; simp
  · rw [h]; simp
  · by_cases h1 : pyTruthyStr ts = true
    · by_cases h2 : pyTruthyStr ds = true
      · rw [h1, h2]; simp [h]
      · rw [Bool.not_eq_true] at h2; rw [h2]; simp
    · rw [Bool.not_eq_true] at h1; rw [h1]; simp
  · by_cases h1 : pyTruthyStr ts = true
    · by_cases h2 : pyTruthyStr ds = true
      · rw [h1, h2]
        cases hd : parse_duration_hours ds with
        | none => simp [hd]
        | some q => simp [hd, h]
      · rw [Bool.not_eq_true] at h2; rw [h2]; simp
    · rw [Bool.not_eq_true] at h1; rw [h1]; simp

/-- C7 witness: the fallback applied to a missing timestamp. -/
theorem C7_witness : determine_single_timestamp_type none (some "01:00 h") = "entry" :=
  C7_missing_evidence_defaults_entry none (some "01:00 h") (Or.inl (by decide))

/-- C6 counterexample: three extracted complete sessions against a reported
count of 1 is a difference of exactly 2, yet validation records the
significant-severity mismatch (the more-than-double test fires) and not the
minor diagnostic the claim promises for that difference. -/
theorem C6_counterexample :
    intAbs ((3 : ℤ) - 1) = 2 ∧
    (validate_sessions_with_tolerance
        (List.replicate 3
          ⟨"Mon 3 Feb", 1, some "06:01", some "07:39", some "01:38 h",
           none, none, none, none, none⟩)
        [("Mon 3 Feb", ⟨[], some 1, none⟩)] "r.pdf" ⟨[], [], [], []⟩).state_issues ≠ [] ∧
    (validate_sessions_with_tolerance
        (List.replicate 3
          ⟨"Mon 3 Feb", 1, some "06:01", some "07:39", some "01:38 h",
           none, none, none, none, none⟩)
        [("Mon 3 Feb", ⟨[], some 1, none⟩)] "r.pdf" ⟨[], [], [], []⟩).warnings = [] := by
  decide

/-- C6 (amended): the per-day grading of the visit-count comparison.  A
significant mismatch is recorded exactly when the difference exceeds 2 or
the extracted count is more than double a positive reported count; the
minor diagnostic is recorded exactly when the difference is 2 and the
significant test does not fire; a difference of at most 1 changes nothing.
Reported 9 against calculated 5 is significant. -/
theorem C6_visit_count_grading (pdf dateStr : String) (e : ℕ) (r : ℤ) (st : ExtractorState) :
    ((validateDayStep pdf e dateStr r st).state_issues ≠ st.state_issues ↔
       (2 < intAbs ((e : ℤ) - r) ∨ (r > 0 ∧ (e : ℤ) > r * 2))) ∧
    ((validateDayStep pdf e dateStr r st).warnings ≠ st.warnings ↔
       (intAbs ((e : ℤ) - r) = 2 ∧ ¬ (2 < intAbs ((e : ℤ) - r) ∨ (r > 0 ∧ (e : ℤ) > r * 2)))) ∧
    (intAbs ((e : ℤ) - r) ≤ 1 → validateDayStep pdf e dateStr r st = st) ∧
    (validateDayStep pdf 5 dateStr 9 st).state_issues ≠ st.state_issues := by
  have habs : intAbs ((e : ℤ) - r) = if (e : ℤ) - r < 0 then -((e : ℤ) - r) else (e : ℤ) - r := rfl
  have hfive : intAbs (((5 : ℕ) : ℤ) - 9) > 2 ∨ ((9 : ℤ) > 0 ∧ ((5 : ℕ) : ℤ) > (9 : ℤ) * 2) := by
    decide
  have hlast : (validateDayStep pdf 5 dateStr 9 st).state_issues ≠ st.state_issues := by
    unfold validateDayStep
    rw [if_pos hfive]
    exact append_singleton_ne _ _
  unfold validateDayStep
  by_cases hsig : intAbs ((e : ℤ) - r) > 2 ∨ (r > 0 ∧ (e : ℤ) > r * 2)
  · rw [if_pos hsig]
    refine ⟨iff_of_true (append_singleton_ne _ _) hsig,
            iff_of_false (by simp) (by tauto), ?_, hlast⟩
    intro hle
    exfalso
    rcases hsig with hs | ⟨hr, hd⟩
    · omega
    · rw [habs] at hle
      split at hle <;> omega
  · rw [if_neg hsig]
    by_cases hmin : intAbs ((e : ℤ) - r) > 1
    · rw [if_pos hmin]
      exact ⟨iff_of_false (by simp) hsig,
             iff_of_true (append_singleton_ne _ _) ⟨by omega, hsig⟩,
             fun hle => absurd hmin (by omega), hlast⟩
    · rw [if_neg hmin]
      exact ⟨iff_of_false (by simp) hsig,
             iff_of_false (by simp) (by omega), fun _ => rfl, hlast⟩

/-- C6 witness: a difference of zero changes nothing (inner hypothesis of
the grading theorem discharged at a concrete input). -/
theorem C6_witness : validateDayStep "r.pdf" 1 "Mon 3 Feb" 1 ⟨[], [], [], []⟩ = ⟨[], [], [], []⟩ :=
  (C6_visit_count_grading "r.pdf" "Mon 3 Feb" 1 1 ⟨[], [], [], []⟩).2.2.1 (by decide)

/-- C8: code-bug evidence.  Under the exact binary64 semantics of the
source's float arithmetic, `(1 + 40/60) * 60` rounds to
99.99999999999998…, which `int()` truncates to 99, so the "H:MM h"
round-trip fails at "01:40 h": the program formats it as "01:39".  Under
exact rational arithmetic (the claim's reading, and plainly the intent) the
same pipeline yields "01:40". -/
theorem C8_roundtrip_binary64_bug :
    convert_duration_to_hhmm_float (some "01:40 h") = some "01:39" ∧
    convert_duration_to_hhmm (some "01:40 h") = some "01:40" := by decide

/-- C2 (spec-modelled): in a report whose labels span the Dec/Jan boundary,
December labels resolve against `reportYear − 1` and January labels against
`reportYear`; the example labels with reportYear 2025 resolve to 2024-12-30,
2024-12-31 and 2025-01-01, which sort in that order. -/
theorem C2_cross_year_resolution (labels : List String) (y : ℤ) (lbl : String)
    (hcross : (detect_cross_year_boundary labels y).cross_year_detected = true) :
    (labelMonthToken? lbl = some "Dec" →
        resolveDateCrossYear lbl y labels =
          convert_date_str_to_full_date (some lbl) (some (y - 1))) ∧
    (labelMonthToken? lbl = some "Jan" →
        resolveDateCrossYear lbl y labels =
          convert_date_str_to_full_date (some lbl) (some y)) ∧
    (resolveDateCrossYear "Mon 30 Dec" 2025 crossYearExampleLabels = some "2024-12-30" ∧
     resolveDateCrossYear "Tue 31 Dec" 2025 crossYearExampleLabels = some "2024-12-31" ∧
     resolveDateCrossYear "Wed 1 Jan" 2025 crossYearExampleLabels = some "2025-01-01" ∧
     pyStrLt "2024-12-30" "2024-12-31" = true ∧ pyStrLt "2024-12-31" "2025-01-01" = true) := by
  refine ⟨?_, ?_, by decide⟩
  · intro hdec
    simp only [resolveDateCrossYear]
    rw [hcross, hdec, (by decide : ((some "Dec" : Option String) == some "Dec") = true)]
    simp [detect_cross_year_boundary]
  · intro hjan
    simp only [resolveDateCrossYear]
    rw [hcross, hjan, (by decide : ((some "Jan" : Option String) == some "Dec") = false)]
    simp [detect_cross_year_boundary]

/-- C2 witness: the resolution theorem applied to the example report. -/
theorem C2_witness :
    resolveDateCrossYear "Mon 30 Dec" 2025 crossYearExampleLabels =
      convert_date_str_to_full_date (some "Mon 30 Dec") (some (2025 - 1)) :=
  (C2_cross_year_resolution crossYearExampleLabels 2025 "Mon 30 Dec" (by decide)).1 (by decide)

/-! ### Dict and loop lemmas for the cross-midnight pairer -/

theorem dictFind?_insert_self (d : List (String × String)) (k v : String) :
    dictFind? (dictInsert d k v) k = some v := by
  unfold dictInsert dictFind?
  by_cases hmem : (d.find? (fun p => p.1 == k)).isSome
  · rw [if_pos hmem, List.find?_map]
    have hpred : ((fun p : String × String => p.1 == k) ∘
        (fun p : String × String => if p.1 == k then (k, v) else p)) =
        fun p : String × String => p.1 == k := by
      funext p
      simp only [Function.comp_apply]
      by_cases hp : (p.1 == k) = true
      · rw [if_pos hp]
        have h1 : ((k, v).1 == k) = true := by simp
        rw [h1, hp]
      · rw [if_neg hp]
    rw [hpred]
    obtain ⟨p0, hp0⟩ := Option.isSome_iff_exists.mp hmem
    rw [hp0]
    have hk : (p0.1 == k) = true := by simpa using List.find?_some hp0
    simp only [Option.map_some']
    rw [if_pos hk]
  · rw [if_neg hmem, List.find?_append]
    rw [Option.not_isSome_iff_eq_none.mp hmem]
    simp

theorem dictFind?_insert_ne (d : List (String × String)) (k' v k : String) (h : k' ≠ k) :
    dictFind? (dictInsert d k' v) k = dictFind? d k := by
  unfold dictInsert dictFind?
  by_cases hmem : (d.find? (fun p => p.1 == k')).isSome
  · rw [if_pos hmem, List.find?_map]
    have hpred : ((fun p : String × String => p.1 == k) ∘
        (fun p : String × String => if p.1 == k' then (k', v) else p)) =
        fun p : String × String => p.1 == k := by
      funext p
      simp only [Function.comp_apply]
      by_cases hp : (p.1 == k') = true
      · rw [if_pos hp]
        have h1 : p.1 = k' := by simpa using hp
        rw [show ((k', v).1 == k) = (k' == k) from rfl, ← h1]
      · rw [if_neg hp]
    rw [hpred]
    cases hf : d.find? (fun p => p.1 == k) with
    | none => rfl
    | some p0 =>
      have hp0 : (p0.1 == k) = true := by simpa using List.find?_some hf
      have hne : ¬ ((p0.1 == k') = true) := by
        intro hcontra
        exact h (by rw [← show p0.1 = k' from by simpa using hcontra,
                        show p0.1 = k from by simpa using hp0])
      simp only [Option.map_some']
      rw [if_neg hne]
  · rw [if_neg hmem, List.find?_append]
    cases hf : d.find? (fun p => p.1 == k) with
    | none =>
      simp [hf, show (k' == k) = false from beq_eq_false_iff_ne.mpr h]
    | some p0 => simp [hf]

/-- Steps of the cross-midnight scan never touch a key that belongs to none
of the scanned observations. -/
theorem crossMidnightLoop_untouched (pdf : String) (l : List SingleTS)
    (d : List (String × String)) (st : ExtractorState) (k : String)
    (h : ∀ x ∈ l, crossKey x ≠ k) :
    dictFind? (crossMidnightLoop pdf l (d, st)).1 k = dictFind? d k := by
  induction l generalizing d st with
  | nil => rfl
  | cons a tail ih =>
    cases tail with
    | nil => rfl
    | cons b rest =>
      rw [crossMidnightLoop]
      by_cases hc : crossMidnightCond a b = true
      · rw [if_pos hc]
        rw [ih _ _ (fun x hx => h x (List.mem_cons_of_mem a hx))]
        rw [dictFind?_insert_ne _ _ _ _ (h b (by simp)),
            dictFind?_insert_ne _ _ _ _ (h a (by simp))]
      · rw [if_neg hc]
        exact ih _ _ (fun x hx => h x (List.mem_cons_of_mem a hx))

/-- A detected pair's second observation can never be the first observation
of another detected pair: the condition needs its minutes before 08:00 as
"tomorrow" but after 20:00 as "today". -/
theorem crossMidnightCond_not_chain (a b c : SingleTS)
    (h : crossMidnightCond a b = true) : crossMidnightCond b c = false := by
  by_contra hc
  rw [Bool.not_eq_false] at hc
  unfold crossMidnightCond at h hc
  simp only [Bool.and_eq_true, decide_eq_true_eq] at h hc
  cases hpb : parse_timestamp_to_minutes (some b.timestamp) with
  | none =>
    rw [hpb] at hc
    exact absurd hc.1.1.1.1 (by simp [pyTruthyInt])
  | some v =>
    rw [hpb] at h hc
    have h1 : v < 8 * 60 := by simpa using h.1.2
    have h2 : v > 20 * 60 := by simpa using hc.1.1.2
    omega

/-- Whenever two adjacent collected single timestamps satisfy the pairing
condition, the scan records "exit" for the first and "entry" for the second
(provided no other observation shares their dict keys). -/
theorem crossMidnightLoop_pairs (pdf : String) (xs ys : List SingleTS) (a b : SingleTS)
    (d : List (String × String)) (st : ExtractorState)
    (hnd : ((xs ++ a :: b :: ys).map crossKey).Nodup)
    (hc : crossMidnightCond a b = true) :
    dictFind? (crossMidnightLoop pdf (xs ++ a :: b :: ys) (d, st)).1 (crossKey a) = some "exit" ∧
    dictFind? (crossMidnightLoop pdf (xs ++ a :: b :: ys) (d, st)).1 (crossKey b) = some "entry" := by
  induction xs generalizing d st with
  | nil =>
    simp only [List.nil_append]
    rw [crossMidnightLoop, if_pos hc]
    have hnd' : (crossKey a :: crossKey b :: ys.map crossKey).Nodup := by
      simpa using hnd
    have hab : crossKey a ≠ crossKey b := by
      have := List.nodup_cons.mp hnd'
      exact fun hcontra => this.1 (by simp [hcontra])
    have hays : ∀ x ∈ b :: ys, crossKey x ≠ crossKey a := by
      intro x hx hcontra
      rcases List.mem_cons.mp hx with hxb | hxys
      · exact hab (by rw [← hxb]; exact hcontra.symm)
      · have := List.nodup_cons.mp hnd'
        exact this.1 (by
          rw [← hcontra]
          exact List.mem_cons_of_mem _ (List.mem_map_of_mem crossKey hxys))
    have hbys : ∀ x ∈ ys, crossKey x ≠ crossKey b := by
      intro x hx hcontra
      have := List.nodup_cons.mp (List.nodup_cons.mp hnd').2
      exact this.1 (by rw [← hcontra]; exact List.mem_map_of_mem crossKey hx)
    constructor
    · rw [crossMidnightLoop_untouched _ _ _ _ _ hays]
      rw [dictFind?_insert_ne _ _ _ _ (fun hcontra => hab hcontra.symm)]
      exact dictFind?_insert_self _ _ _
    · cases ys with
      | nil =>
        exact dictFind?_insert_self _ _ _
      | cons c rest =>
        rw [crossMidnightLoop, if_neg (by rw [crossMidnightCond_not_chain a b c hc]; simp)]
        rw [crossMidnightLoop_untouched _ _ _ _ _ (fun x hx => hbys x hx)]
        exact dictFind?_insert_self _ _ _
  | cons x xs' ih =>
    have hnd' : (((xs' ++ a :: b :: ys)).map crossKey).Nodup := by
      rw [List.cons_append, List.map_cons, List.nodup_cons] at hnd
      exact hnd.2
    rw [List.cons_append]
    cases hxs : xs' ++ a :: b :: ys with
    | nil => exact absurd hxs (by simp)
    | cons y t =>
      rw [crossMidnightLoop]
      rw [← hxs]
      by_cases hcx : crossMidnightCond x y = true
      · rw [if_pos hcx]
        exact ih _ _ hnd'
      · rw [if_neg hcx]
        exact ih _ _ hnd'

/-- C3 counterexample: the spec's boundary case — day A ending "23:10" with
"00:50 h" and day B starting "00:00" with "00:00 h" — does NOT pair: Python
truthiness rejects the parsed minute value 0 and the parsed duration 0.0,
so the scan records nothing and no Correction is appended.  Likewise a
timestamp at exactly 20:00 fails the strict `>` threshold, against the
claim's "at or after 20:00". -/
theorem C3_counterexample :
    crossMidnightCond ⟨"Mon 30 Dec", "23:10", some "00:50 h"⟩
        ⟨"Tue 31 Dec", "00:00", some "00:00 h"⟩ = false ∧
    crossMidnightLoop "r.pdf"
        [⟨"Mon 30 Dec", "23:10", some "00:50 h"⟩, ⟨"Tue 31 Dec", "00:00", some "00:00 h"⟩]
        ([], ⟨[], [], [], []⟩) = ([], ⟨[], [], [], []⟩) ∧
    crossMidnightCond ⟨"d1", "20:00", some "04:00 h"⟩ ⟨"d2", "00:30", some "00:30 h"⟩ = false := by
  decide

/-- C3 (amended): for adjacent collected single timestamps with distinct
keys, the cross-midnight pairer overrides the pair's classification to
exit/entry exactly under the source's condition: today's timestamp parses
to a nonzero minute value strictly after 20:00, tomorrow's to a nonzero
value strictly before 08:00 (so the "00:00" boundary case is excluded by
truthiness), both durations parse to nonzero hour counts, and both match
the to-midnight and from-midnight intervals within 0.5 h. -/
theorem C3_cross_midnight_pairing (pdf : String) (xs ys : List SingleTS) (a b : SingleTS)
    (st : ExtractorState)
    (hnd : ((xs ++ a :: b :: ys).map crossKey).Nodup)
    (hc : crossMidnightCond a b = true) :
    dictFind? (crossMidnightLoop pdf (xs ++ a :: b :: ys) ([], st)).1 (crossKey a) =
      some "exit" ∧
    dictFind? (crossMidnightLoop pdf (xs ++ a :: b :: ys) ([], st)).1 (crossKey b) =
      some "entry" :=
  crossMidnightLoop_pairs pdf xs ys a b [] st hnd hc

/-- C3 witness: a valid overnight pair ("23:10"/"00:50 h" then
"00:30"/"00:30 h") is recorded as exit/entry. -/
theorem C3_witness :
    dictFind? (crossMidnightLoop "r.pdf"
        [⟨"Mon 30 Dec", "23:10", some "00:50 h"⟩, ⟨"Tue 31 Dec", "00:30", some "00:30 h"⟩]
        ([], ⟨[], [], [], []⟩)).1 (crossKey ⟨"Mon 30 Dec", "23:10", some "00:50 h"⟩) =
      some "exit" ∧
    dictFind? (crossMidnightLoop "r.pdf"
        [⟨"Mon 30 Dec", "23:10", some "00:50 h"⟩, ⟨"Tue 31 Dec", "00:30", some "00:30 h"⟩]
        ([], ⟨[], [], [], []⟩)).1 (crossKey ⟨"Tue 31 Dec", "00:30", some "00:30 h"⟩) =
      some "entry" :=
  C3_cross_midnight_pairing "r.pdf" [] []
    ⟨"Mon 30 Dec", "23:10", some "00:50 h"⟩ ⟨"Tue 31 Dec", "00:30", some "00:30 h"⟩
    ⟨[], [], [], []⟩ (by decide) (by decide)

theorem buildPairStep_adds (cp : List (String × String)) (pdf dateStr : String) (day : DayData)
    (acc : List Session × ℕ × ExtractorState) (pair : TimeDurationPair) :
    ∃ s, (buildPairStep cp pdf dateStr day acc pair).1 = acc.1 ++ [s] ∧
      SessionMatchesPair dateStr day pair s := by
  cases pair with
  | completeSession e en du =>
    refine ⟨{ date_str := dateStr, session_number := acc.2.1, exit_time := some e,
              entry_time := some en, duration := du,
              daily_total_visits_PDF := day.daily_visits,
              daily_total_time_outside_PDF := day.daily_total_time,
              daily_total_visits_calculated := none,
              daily_total_time_outside_calculated := none, date_full := none }, rfl, ?_⟩
    unfold SessionMatchesPair
    exact ⟨rfl, rfl, rfl, rfl, rfl, rfl, rfl, rfl, rfl⟩
  | singleTimestamp t du =>
    simp only [buildPairStep]
    split
    · refine ⟨{ date_str := dateStr, session_number := acc.2.1, exit_time := some t,
                entry_time := none, duration := du,
                daily_total_visits_PDF := day.daily_visits,
                daily_total_time_outside_PDF := day.daily_total_time,
                daily_total_visits_calculated := none,
                daily_total_time_outside_calculated := none, date_full := none }, rfl, ?_⟩
      unfold SessionMatchesPair
      exact ⟨rfl, rfl, rfl, rfl, rfl, rfl, rfl, Or.inl ⟨rfl, rfl⟩⟩
    · refine ⟨{ date_str := dateStr, session_number := acc.2.1, exit_time := none,
                entry_time := some t, duration := du,
                daily_total_visits_PDF := day.daily_visits,
                daily_total_time_outside_PDF := day.daily_total_time,
                daily_total_visits_calculated := none,
                daily_total_time_outside_calculated := none, date_full := none }, rfl, ?_⟩
      unfold SessionMatchesPair
      exact ⟨rfl, rfl, rfl, rfl, rfl, rfl, rfl, Or.inr ⟨rfl, rfl⟩⟩

theorem foldl_buildPairStep_mem (cp : List (String × String)) (pdf dateStr : String)
    (day : DayData) :
    ∀ (pairs : List TimeDurationPair) (acc : List Session × ℕ × ExtractorState) (s : Session),
      s ∈ (pairs.foldl (buildPairStep cp pdf dateStr day) acc).1 →
      s ∈ acc.1 ∨ ∃ pair ∈ pairs, SessionMatchesPair dateStr day pair s := by
  intro pairs
  induction pairs with
  | nil => exact fun acc s h => Or.inl h
  | cons p ps ih =>
    intro acc s h
    rw [List.foldl_cons] at h
    rcases ih _ s h with hacc | ⟨pair, hpair, hshape⟩
    · obtain ⟨s', hs', hshape'⟩ := buildPairStep_adds cp pdf dateStr day acc p
      rw [hs'] at hacc
      rcases List.mem_append.mp hacc with h1 | h2
      · exact Or.inl h1
      · refine Or.inr ⟨p, List.mem_cons_self p ps, ?_⟩
        rwa [List.mem_singleton.mp h2]
    · exact Or.inr ⟨pair, List.mem_cons_of_mem p hpair, hshape⟩

theorem buildDaySessions_mem (cp : List (String × String)) (pdf dateStr : String)
    (day : DayData) (st : ExtractorState) (s : Session)
    (h : s ∈ (buildDaySessions cp pdf dateStr day st).1) :
    ∃ pair ∈ day.time_duration_pairs, SessionMatchesPair dateStr day pair s := by
  unfold buildDaySessions at h
  rcases foldl_buildPairStep_mem cp pdf dateStr day day.time_duration_pairs ([], 1, st) s h with
    habs | hok
  · simp at habs
  · exact hok

theorem foldl_buildDayFold_mem (dd : DailyData) (cp : List (String × String)) (pdf : String) :
    ∀ (keys : List String) (acc : List Session × ExtractorState) (s : Session),
      s ∈ (keys.foldl (buildDayFold dd cp pdf) acc).1 →
      s ∈ acc.1 ∨ ∃ d day pair, dayDataFind? dd d = some day ∧
        pair ∈ day.time_duration_pairs ∧ SessionMatchesPair d day pair s := by
  intro keys
  induction keys with
  | nil => exact fun acc s h => Or.inl h
  | cons k ks ih =>
    intro acc s h
    rw [List.foldl_cons] at h
    rcases ih _ s h with hacc | hok
    · unfold buildDayFold at hacc
      cases hfind : dayDataFind? dd k with
      | none => rw [hfind] at hacc; exact Or.inl hacc
      | some day =>
        rw [hfind] at hacc
        rcases List.mem_append.mp hacc with h1 | h2
        · exact Or.inl h1
        · obtain ⟨pair, hpair, hshape⟩ := buildDaySessions_mem cp pdf k day acc.2 s h2
          exact Or.inr ⟨k, day, pair, hfind, hpair, hshape⟩
    · exact Or.inr hok

/-- Every session of the builder's pre-writeback list comes from some day's
pair and matches its shape. -/
theorem buildAllDays_mem (dd : DailyData) (cp : List (String × String)) (pdf : String)
    (keys : List String) (st : ExtractorState) (s : Session)
    (h : s ∈ (buildAllDays dd cp pdf keys st).1) :
    ∃ d day pair, dayDataFind? dd d = some day ∧
      pair ∈ day.time_duration_pairs ∧ SessionMatchesPair d day pair s := by
  rcases foldl_buildDayFold_mem dd cp pdf keys ([], st) s h with habs | hok
  · simp at habs
  · exact hok

theorem framePreserved_refl (a : ExtractorState) : framePreserved a a := ⟨rfl, rfl, rfl⟩

theorem framePreserved_trans {a b c : ExtractorState}
    (h1 : framePreserved a b) (h2 : framePreserved b c) : framePreserved a c :=
  ⟨h1.1.trans h2.1, h1.2.1.trans h2.2.1, h1.2.2.trans h2.2.2⟩

theorem determine_m_frame (ts ds : Option String) (d f : String) (st : ExtractorState) :
    framePreserved (determine_single_timestamp_type_m ts ds d f st).2 st := by
  unfold determine_single_timestamp_type_m
  repeat' split
  all_goals exact ⟨rfl, rfl, rfl⟩

theorem buildPairStep_frame (cp : List (String × String)) (pdf dateStr : String) (day : DayData)
    (acc : List Session × ℕ × ExtractorState) (pair : TimeDurationPair) :
    framePreserved (buildPairStep cp pdf dateStr day acc pair).2.2 acc.2.2 := by
  cases pair with
  | completeSession e en du => exact framePreserved_refl _
  | singleTimestamp t du =>
    unfold buildPairStep
    cases hfind : dictFind? cp (dateStr ++ "_" ++ t) with
    | some v =>
      simp only [hfind]
      split
      · exact framePreserved_refl _
      · exact framePreserved_refl _
    | none =>
      simp only [hfind]
      split
      · exact determine_m_frame _ _ _ _ _
      · exact determine_m_frame _ _ _ _ _

theorem foldl_buildPairStep_frame (cp : List (String × String)) (pdf dateStr : String)
    (day : DayData) :
    ∀ (pairs : List TimeDurationPair) (acc : List Session × ℕ × ExtractorState),
      framePreserved (pairs.foldl (buildPairStep cp pdf dateStr day) acc).2.2 acc.2.2 := by
  intro pairs
  induction pairs with
  | nil => exact fun acc => framePreserved_refl _
  | cons p ps ih =>
    intro acc
    rw [List.foldl_cons]
    exact framePreserved_trans (ih _) (buildPairStep_frame cp pdf dateStr day acc p)

theorem buildDaySessions_frame (cp : List (String × String)) (pdf dateStr : String)
    (day : DayData) (st : ExtractorState) :
    framePreserved (buildDaySessions cp pdf dateStr day st).2 st :=
  foldl_buildPairStep_frame cp pdf dateStr day day.time_duration_pairs ([], 1, st)

theorem foldl_buildDayFold_frame (dd : DailyData) (cp : List (String × String)) (pdf : String) :
    ∀ (keys : List String) (acc : List Session × ExtractorState),
      framePreserved (keys.foldl (buildDayFold dd cp pdf) acc).2 acc.2 := by
  intro keys
  induction keys with
  | nil => exact fun acc => framePreserved_refl _
  | cons k ks ih =>
    intro acc
    rw [List.foldl_cons]
    refine framePreserved_trans (ih _) ?_
    unfold buildDayFold
    cases hfind : dayDataFind? dd k with
    | none => exact framePreserved_refl _
    | some day => exact buildDaySessions_frame cp pdf k day acc.2

theorem crossMidnightLoop_frame (pdf : String) :
    ∀ (l : List SingleTS) (d : List (String × String)) (st : ExtractorState),
      framePreserved (crossMidnightLoop pdf l (d, st)).2 st := by
  intro l
  induction l with
  | nil => exact fun d st => framePreserved_refl _
  | cons a tail ih =>
    intro d st
    cases tail with
    | nil => exact framePreserved_refl _
    | cons b rest =>
      rw [crossMidnightLoop]
      by_cases hc : crossMidnightCond a b = true
      · rw [if_pos hc]
        exact framePreserved_trans (ih _ _) ⟨rfl, rfl, rfl⟩
      · rw [if_neg hc]
        exact ih _ _

theorem build_sessions_frame (dd : DailyData) (pdf : String) (y : Option ℤ)
    (st : ExtractorState) :
    framePreserved (build_sessions_with_enhanced_validation dd pdf y st).2 st := by
  unfold build_sessions_with_enhanced_validation
  have h1 := crossMidnightLoop_frame pdf (collectSingles dd (sortedDateKeys dd y)) [] st
  refine framePreserved_trans ?_ h1
  exact foldl_buildDayFold_frame dd _ pdf (sortedDateKeys dd y) _

/-- C9: every session the builder emits carries an exit time or an entry
time (complete sessions carry both; a classified single timestamp carries
exactly the one its type selects). -/
theorem C9_session_has_endpoint (dd : DailyData) (pdf : String) (y : Option ℤ)
    (st : ExtractorState) (s : Session)
    (h : s ∈ (build_sessions_with_enhanced_validation dd pdf y st).1) :
    s.exit_time ≠ none ∨ s.entry_time ≠ none := by
  unfold build_sessions_with_enhanced_validation at h
  unfold attachCalculatedTotals at h
  obtain ⟨t, ht, rfl⟩ := List.mem_map.mp h
  obtain ⟨d, day, pair, _, _, hshape⟩ := buildAllDays_mem _ _ _ _ _ t ht
  cases pair with
  | completeSession e en du =>
    left
    simp only [hshape.2.2.2.2.2.2.1]
    exact Option.some_ne_none e
  | singleTimestamp ts' du =>
    rcases hshape.2.2.2.2.2.2.2 with ⟨hx, _⟩ | ⟨_, hn⟩
    · left
      simp only [hx]
      exact Option.some_ne_none ts'
    · right
      simp only [hn]
      exact Option.some_ne_none ts'

/-- C10: the session-construction engine appends only to the confidence
trail — it leaves `errors`, `warnings` and `state_issues` unchanged — and
the post-extraction `process_pdf` pipeline (which never invokes
`validate_sessions_with_tolerance`) never appends to `state_issues`. -/
theorem C10_builder_frame (dd : DailyData) (pdf : String) (y : Option ℤ)
    (st : ExtractorState) :
    (build_sessions_with_enhanced_validation dd pdf y st).2.errors = st.errors ∧
    (build_sessions_with_enhanced_validation dd pdf y st).2.warnings = st.warnings ∧
    (build_sessions_with_enhanced_validation dd pdf y st).2.state_issues = st.state_issues ∧
    (processPdfCore dd y pdf st).2.state_issues = st.state_issues := by
  obtain ⟨he, hw, hs⟩ := build_sessions_frame dd pdf y st
  refine ⟨he, hw, hs, ?_⟩
  unfold processPdfCore
  split
  · rfl
  · by_cases h2 : (build_sessions_with_enhanced_validation dd pdf y st).1.isEmpty = true
    · simp only [h2, if_true]
      exact hs
    · simp only [h2, if_false]
      exact hs

/-- C5 counterexample: two 30-second sessions.  The code truncates each
session's duration to whole minutes before summing (0 + 0 → "00:00"),
whereas summing the parsed durations and then truncating — the claim's
reading — gives "00:01". -/
theorem C5_counterexample :
    calculate_daily_totals
      [⟨"Mon 3 Feb", 1, some "06:01", some "06:01", some "00:30 mins",
        none, none, none, none, none⟩,
       ⟨"Mon 3 Feb", 2, some "07:01", some "07:01", some "00:30 mins",
        none, none, none, none, none⟩] = ⟨2, "00:00"⟩ ∧
    specCalculatedTimeOutside
      [⟨"Mon 3 Feb", 1, some "06:01", some "06:01", some "00:30 mins",
        none, none, none, none, none⟩,
       ⟨"Mon 3 Feb", 2, some "07:01", some "07:01", some "00:30 mins",
        none, none, none, none, none⟩] = "00:01" := by decide

/-- Over well-formed input, a built session's truthy exit test coincides
with its exit time being non-null. -/
theorem buildAllDays_exit_truthy (dd : DailyData) (cp : List (String × String)) (pdf : String)
    (keys : List String) (st : ExtractorState) (u : Session)
    (hu : u ∈ (buildAllDays dd cp pdf keys st).1)
    (hgood : ∀ p ∈ dd, ∀ q ∈ p.2.time_duration_pairs, goodPair q = true) :
    (pyTruthyStr u.exit_time = true) ↔ u.exit_time ≠ none := by
  obtain ⟨d, day, pair, hfind, hpair, hshape⟩ := buildAllDays_mem dd cp pdf keys st u hu
  obtain ⟨p, hpfind, hp2⟩ := Option.map_eq_some'.mp hfind
  have hpmem : p ∈ dd := List.mem_of_find?_eq_some hpfind
  have hgp : goodPair pair = true := hgood p hpmem pair (by rw [hp2]; exact hpair)
  cases pair with
  | completeSession e en du =>
    have hx := hshape.2.2.2.2.2.2.1
    have he : e ≠ "" := by
      simp only [goodPair, Bool.and_eq_true, decide_eq_true_eq] at hgp
      exact hgp.1
    rw [hx]
    simp [pyTruthyStr, he]
  | singleTimestamp t du =>
    have ht : t ≠ "" := by
      simp only [goodPair, decide_eq_true_eq] at hgp
      exact hgp
    rcases hshape.2.2.2.2.2.2.2 with ⟨hx, _⟩ | ⟨hx, _⟩
    · rw [hx]
      simp [pyTruthyStr, ht]
    · rw [hx]
      simp [pyTruthyStr]

/-- Core of the daily aggregation claim, for any session list whose truthy
exit test coincides with non-nullness: the writeback stamps every session
of a day with that day's complete count of non-null exits and the sum of
the per-session truncated minutes. -/
theorem attach_totals_spec (base : List Session) (s : Session)
    (hmem : s ∈ attachCalculatedTotals base)
    (hexit : ∀ u ∈ base, (pyTruthyStr u.exit_time = true) ↔ u.exit_time ≠ none) :
    s.daily_total_visits_calculated =
      some (((attachCalculatedTotals base).filter
          (fun t => t.date_str == s.date_str)).countP (fun t => t.exit_time ≠ none)) ∧
    s.daily_total_time_outside_calculated =
      some (minutesToHHMM
        ((((attachCalculatedTotals base).filter
            (fun t => t.date_str == s.date_str)).map
          (fun t => sessionMinutes t.duration)).sum)) := by
  unfold attachCalculatedTotals at hmem
  obtain ⟨t, ht, rfl⟩ := List.mem_map.mp hmem
  have hGne : base.filter (fun u => u.date_str == t.date_str) ≠ [] :=
    List.ne_nil_of_mem (List.mem_filter.mpr ⟨ht, by simp⟩)
  have htot : calculate_daily_totals (base.filter (fun u => u.date_str == t.date_str)) =
      ⟨(base.filter (fun u => u.date_str == t.date_str)).countP
          (fun u => pyTruthyStr u.exit_time),
        minutesToHHMM ((base.filter (fun u => u.date_str == t.date_str)).map
          (fun u => sessionMinutes u.duration)).sum⟩ := by
    unfold calculate_daily_totals
    rw [if_neg (by simp [List.isEmpty_iff, hGne])]
  have hfilter : (attachCalculatedTotals base).filter (fun u => u.date_str == t.date_str) =
      (base.filter (fun u => u.date_str == t.date_str)).map
        (fun s => { s with
          daily_total_visits_calculated :=
            some (calculate_daily_totals
              (base.filter (fun v => v.date_str == s.date_str))).visits
          daily_total_time_outside_calculated :=
            some (calculate_daily_totals
              (base.filter (fun v => v.date_str == s.date_str))).time_outside }) := by
    unfold attachCalculatedTotals
    rw [List.filter_map]
    rfl
  constructor
  · show some (calculate_daily_totals
        (base.filter (fun v => v.date_str == t.date_str))).visits = _
    rw [hfilter, htot, List.countP_map]
    congr 1
    refine List.countP_congr ?_
    intro u hu
    have hub : u ∈ base := (List.mem_filter.mp hu).1
    simp only [Function.comp_apply, decide_eq_true_eq]
    exact hexit u hub
  · show some (calculate_daily_totals
        (base.filter (fun v => v.date_str == t.date_str))).time_outside = _
    rw [hfilter, htot, List.map_map]
    rfl

/-- C5 (amended): the aggregator stamps every built session with its day's
calculated totals — `calculatedVisits` counts sessions with a non-null exit
time, and `calculatedTimeOutside` formats the sum of the per-session
whole-minute truncations of the parsed durations. -/
theorem C5_daily_totals_written (dd : DailyData) (pdf : String) (y : Option ℤ)
    (st : ExtractorState) (s : Session)
    (hmem : s ∈ (build_sessions_with_enhanced_validation dd pdf y st).1)
    (hgood : ∀ p ∈ dd, ∀ q ∈ p.2.time_duration_pairs, goodPair q = true) :
    s.daily_total_visits_calculated =
      some (((build_sessions_with_enhanced_validation dd pdf y st).1.filter
          (fun t => t.date_str == s.date_str)).countP (fun t => t.exit_time ≠ none)) ∧
    s.daily_total_time_outside_calculated =
      some (minutesToHHMM
        ((((build_sessions_with_enhanced_validation dd pdf y st).1.filter
            (fun t => t.date_str == s.date_str)).map
          (fun t => sessionMinutes t.duration)).sum)) := by
  have hexit : ∀ u ∈ (buildAllDays dd
      (crossMidnightLoop pdf (collectSingles dd (sortedDateKeys dd y)) ([], st)).1 pdf
      (sortedDateKeys dd y)
      (crossMidnightLoop pdf (collectSingles dd (sortedDateKeys dd y)) ([], st)).2).1,
      (pyTruthyStr u.exit_time = true) ↔ u.exit_time ≠ none := by
    intro u hu
    exact buildAllDays_exit_truthy dd _ pdf _ _ u hu hgood
  exact attach_totals_spec _ s hmem hexit

/-- C9 witness: the endpoint invariant applied to a session built from a
concrete report day. -/
theorem C9_witness :
    (⟨"Mon 3 Feb", 2, some "22:24", none, some "01:35 h", some 2, some "03:13 h",
      some 2, some "03:13", none⟩ : Session).exit_time ≠ none ∨
    (⟨"Mon 3 Feb", 2, some "22:24", none, some "01:35 h", some 2, some "03:13 h",
      some 2, some "03:13", none⟩ : Session).entry_time ≠ none :=
  C9_session_has_endpoint
    [("Mon 3 Feb",
      ⟨[TimeDurationPair.completeSession "06:01" "07:39" (some "01:38 h"),
        TimeDurationPair.singleTimestamp "22:24" (some "01:35 h")],
       some 2, some "03:13 h"⟩)]
    "t.pdf" (some 2024) ⟨[], [], [], []⟩
    ⟨"Mon 3 Feb", 2, some "22:24", none, some "01:35 h", some 2, some "03:13 h",
     some 2, some "03:13", none⟩ (by decide)

/-- C5 witness: the aggregation theorem applied to a session built from a
concrete report day. -/
theorem C5_witness :
    (⟨"Mon 3 Feb", 1, some "06:01", some "07:39", some "01:38 h", some 2, some "03:13 h",
      some 2, some "03:13", none⟩ : Session).daily_total_visits_calculated =
      some (((build_sessions_with_enhanced_validation
          [("Mon 3 Feb",
            ⟨[TimeDurationPair.completeSession "06:01" "07:39" (some "01:38 h"),
              TimeDurationPair.singleTimestamp "22:24" (some "01:35 h")],
             some 2, some "03:13 h"⟩)]
          "t.pdf" (some 2024) ⟨[], [], [], []⟩).1.filter
        (fun t => t.date_str ==
          (⟨"Mon 3 Feb", 1, some "06:01", some "07:39", some "01:38 h", some 2, some "03:13 h",
            some 2, some "03:13", none⟩ : Session).date_str)).countP
        (fun t => t.exit_time ≠ none)) :=
  (C5_daily_totals_written
    [("Mon 3 Feb",
      ⟨[TimeDurationPair.completeSession "06:01" "07:39" (some "01:38 h"),
        TimeDurationPair.singleTimestamp "22:24" (some "01:35 h")],
       some 2, some "03:13 h"⟩)]
    "t.pdf" (some 2024) ⟨[], [], [], []⟩
    ⟨"Mon 3 Feb", 1, some "06:01", some "07:39", some "01:38 h", some 2, some "03:13 h",
     some 2, some "03:13", none⟩ (by decide) (by decide)).1

end CatFlap

